import Mathlib

/-!
Shallow embedding of `src/TaskManagerCore.js`, a Google-Apps-Script task
manager that stores tasks as rows of a single "Tasks" sheet.

Modelling decisions, from the source:

* The sheet is `Option (List TaskRow)`: `none` when the Tasks sheet does not
  exist, `some rows` the data rows below the header (row 1 is the header, so
  the sheet's `getLastRow()` is `rows.length + 1`).
* The source contains two `addTask` definitions (an "advanced" one at lines
  133-153 validating the title and building the row via `buildTaskData`, and a
  later 7-column "simple" one at lines 435-460).  The simple variant, like
  `completeTask`/`deleteTask`/`getTasks`, refers to the bare globals
  `SHEET_NAME` and `HEADERS`, which are defined nowhere in the project (only
  `CONFIG.SHEET_NAME` / `CONFIG.HEADERS` exist); the evident intent, and the
  repository's own documentation, is that these resolve to the CONFIG values.
  We embed the advanced `addTask` (the coherent variant that matches the
  9-column layout of `buildTaskData` and `getAllTasks`), and we embed
  `completeTask`, `deleteTask` and `getTasks` (whose only definitions are the
  simple-variant ones) with the sheet lookup resolved to the Tasks sheet.
* Dates: JS `Date` values are modelled as millisecond timestamps (`Int`); the
  optional due date is `Option Int` (`none` for the empty string the code
  stores when no due date is given).  `new Date()` at creation time is passed
  in explicitly as `now`.
* JS object maps built by insertion (`byStatus`, `tagDistribution`, ...) are
  association lists in insertion order.  A counter bumped on a missing key
  (`analytics.byStatus[s]++` for an off-enum status) becomes `NaN` in JS, so
  enum counters carry `Option ℚ` with `none` playing NaN; the `(m[k] || 0) + 1`
  pattern used for assignees and tags inserts `1` and is modelled directly.
* `Number.prototype.toFixed(2)` is modelled on exact rationals (round half up
  at the second decimal, two rendered digits); the analytics claims only apply
  it to exact values, where this agrees with JS.
-/

namespace TaskManager

/-- CONFIG.STATUS_OPTIONS from the source. -/
def STATUS_OPTIONS : List String := ["Pending", "In Progress", "Completed", "Blocked"]

/-- CONFIG.PRIORITY_OPTIONS from the source. -/
def PRIORITY_OPTIONS : List String := ["Low", "Medium", "High", "Critical"]

/-- CONFIG.BATCH_SIZE from the source. -/
def BATCH_SIZE : Nat := 100

/-- One data row of the Tasks sheet, in the 9-column layout
`ID, Task, Status, Priority, Created Date, Due Date, Notes, Tags, Assignee`. -/
structure TaskRow where
  id : Nat
  task : String
  status : String
  priority : String
  createdDate : Int
  dueDate : Option Int
  notes : String
  tags : String
  assignee : String
  deriving DecidableEq, Repr

/-- The Tasks sheet: `none` when the sheet does not exist, otherwise the data
rows below the header, top to bottom. -/
abbrev SheetState := Option (List TaskRow)

/-- Errors thrown by the task operations (`throw new Error(...)` in the
source): validation failures, and `getTaskSheet`'s "Task sheet not found". -/
inductive JsError where
  | validation (msg : String)
  | storeNotInitialized
  deriving DecidableEq, Repr

/-- JS whitespace for `String.prototype.trim`. -/
def isJsSpace (c : Char) : Bool := c.isWhitespace

/-- Strip leading and trailing whitespace from a character list. -/
def trimChars (cs : List Char) : List Char :=
  ((cs.dropWhile isJsSpace).reverse.dropWhile isJsSpace).reverse

/-- `String.prototype.trim()`, modelled on the string's characters (Lean's
own `String.trim` is not kernel-reducible, so the embedding carries its own
structural definition). -/
def jsTrim (s : String) : String := String.mk (trimChars s.data)

/-- `String.prototype.split(sep)` for a one-character separator, as used by
`task.tags.split(',')`: splitting never drops tokens, and splitting the empty
string yields one empty token. -/
def splitChars (sep : Char) : List Char → List (List Char)
  | [] => [[]]
  | c :: cs =>
      let rest := splitChars sep cs
      if c = sep then [] :: rest
      else
        match rest with
        | [] => [[c]]
        | g :: gs => (c :: g) :: gs

/-- `s.split(sep)` on strings. -/
def jsSplit (s : String) (sep : Char) : List String := (splitChars sep s.data).map String.mk

/-- `buildTaskData` (source lines 158-189): computes the new id from the
sheet's last row (`newId = lastRow > 1 ? lastRow : 1` with
`lastRow = rows.length + 1`), falls back to `'Medium'` for an unrecognized
priority, trims the text fields, and fixes status `'Pending'`. -/
def buildTaskData (rows : List TaskRow) (now : Int) (taskName priority : String)
    (dueDate : Option Int) (notes tags assignee : String) : TaskRow :=
  let lastRow := rows.length + 1
  let newId := if lastRow > 1 then lastRow else 1
  let priority := if priority ∈ PRIORITY_OPTIONS then priority else "Medium"
  { id := newId
    task := jsTrim taskName
    status := "Pending"
    priority := priority
    createdDate := now
    dueDate := dueDate
    notes := jsTrim notes
    tags := jsTrim tags
    assignee := jsTrim assignee }

/-- The advanced `addTask` (source lines 133-153): rejects an empty or
whitespace-only title before touching the sheet (`!taskName ||
taskName.trim() === ''`), requires the sheet to exist (`getTaskSheet`),
appends the row built by `buildTaskData` at the end and returns the new id.
The returned state is the sheet after the call: unchanged whenever an error
is thrown, since both throws precede any write. -/
def addTask (st : SheetState) (now : Int) (taskName priority : String)
    (dueDate : Option Int) (notes tags assignee : String) :
    SheetState × Except JsError Nat :=
  if taskName = "" ∨ jsTrim taskName = "" then
    (st, .error (.validation "Task name is required"))
  else
    match st with
    | none => (st, .error .storeNotInitialized)
    | some rows =>
        let taskData := buildTaskData rows now taskName priority dueDate notes tags assignee
        (some (rows ++ [taskData]), .ok taskData.id)

/-- One element of the array passed to `addTasksBatch` (the
`task.name, task.priority, ...` fields read at line 212). -/
structure TaskInput where
  name : String
  priority : String
  dueDate : Option Int
  notes : String
  tags : String
  assignee : String
  deriving DecidableEq, Repr

/-- The argument of `addTasksBatch`: a JS array of task inputs, or any
non-array value (`!Array.isArray(tasksArray)`). -/
inductive BatchInput where
  | arr (tasks : List TaskInput)
  | notArray
  deriving DecidableEq, Repr

/-- The chunking loop of `addTasksBatch` (lines 203-205):
`for (i = 0; i < n; i += BATCH_SIZE) batches.push(slice(i, i + BATCH_SIZE))`.
The fuel is the list length, which bounds the number of loop iterations since
each one consumes at least one element (`BATCH_SIZE = 100 ≥ 1`). -/
def chunksGo {α : Type} (fuel : Nat) (l : List α) : List (List α) :=
  match fuel with
  | 0 => []
  | f + 1 =>
      if l.isEmpty then []
      else l.take BATCH_SIZE :: chunksGo f (l.drop BATCH_SIZE)

/-- The list of batches `addTasksBatch` splits its input into. -/
def chunksOf {α : Type} (l : List α) : List (List α) := chunksGo l.length l

/-- Body of the `batches.forEach` loop of `addTasksBatch` (lines 209-229):
every task of the chunk is mapped through `buildTaskData` against the sheet as
it stands BEFORE the chunk is written (the `setValues` call runs only after
the whole `batch.map`), then the chunk is appended and the counter advanced by
the chunk's length. -/
def batchStep (now : Int) (acc : List TaskRow × Nat) (batch : List TaskInput) :
    List TaskRow × Nat :=
  let taskDataBatch := batch.map fun t =>
    buildTaskData acc.1 now t.name t.priority t.dueDate t.notes t.tags t.assignee
  (acc.1 ++ taskDataBatch, acc.2 + taskDataBatch.length)

/-- `addTasksBatch` (source lines 194-233): throws
`'Invalid tasks array provided'` on a non-array or empty input, requires the
sheet, then processes the chunks in order and returns the total count added.
(The per-chunk `try/catch` only catches host-side write failures, which have
no counterpart in this deterministic model, so no chunk fails here.) -/
def addTasksBatch (st : SheetState) (now : Int) (input : BatchInput) :
    SheetState × Except JsError Nat :=
  match input with
  | .notArray => (st, .error (.validation "Invalid tasks array provided"))
  | .arr tasks =>
      if tasks.length = 0 then
        (st, .error (.validation "Invalid tasks array provided"))
      else
        match st with
        | none => (st, .error .storeNotInitialized)
        | some rows =>
            let res := (chunksOf tasks).foldl (batchStep now) (rows, 0)
            (some res.1, .ok res.2)

/-- The scan-and-break loop of `completeTask` (lines 475-482): set the status
cell of the FIRST row whose ID equals the argument to `'Completed'`, then
stop; later rows are untouched and a miss changes nothing. -/
def setStatusFirst : List TaskRow → Nat → List TaskRow
  | [], _ => []
  | r :: rs, tid =>
      if r.id = tid then { r with status := "Completed" } :: rs
      else r :: setStatusFirst rs tid

/-- `completeTask` (source lines 465-483): when the sheet is missing it only
shows an alert and returns (no state change, no throw); otherwise it marks the
first row matching the id as Completed. -/
def completeTask (st : SheetState) (taskId : Nat) : SheetState :=
  match st with
  | none => none
  | some rows => some (setStatusFirst rows taskId)

/-- The scan-and-break loop of `deleteTask` (lines 498-503): `deleteRow` on
the FIRST row whose ID equals the argument, then stop. -/
def deleteFirst : List TaskRow → Nat → List TaskRow
  | [], _ => []
  | r :: rs, tid => if r.id = tid then rs else r :: deleteFirst rs tid

/-- `deleteTask` (source lines 488-504): alert-and-return when the sheet is
missing, otherwise remove the first row matching the id (later rows shift up,
which the list model renders as plain removal). -/
def deleteTask (st : SheetState) (taskId : Nat) : SheetState :=
  match st with
  | none => none
  | some rows => some (deleteFirst rows taskId)

/-- The task record `getTasks` returns (7 fields: the simple variant reads no
Tags/Assignee columns). -/
structure TaskView where
  id : Nat
  task : String
  status : String
  priority : String
  createdDate : Int
  dueDate : Option Int
  notes : String
  deriving DecidableEq, Repr

/-- Column projection used by `getTasks` (lines 520-528). -/
def toTaskView (r : TaskRow) : TaskView :=
  { id := r.id
    task := r.task
    status := r.status
    priority := r.priority
    createdDate := r.createdDate
    dueDate := r.dueDate
    notes := r.notes }

/-- `getTasks` (source lines 509-536): returns `[]` when the sheet does not
exist (no error), otherwise every data row, kept when the filter is the empty
string or equals the row's status (`statusFilter === '' || task.status ===
statusFilter`). -/
def getTasks (st : SheetState) (statusFilter : String) : List TaskView :=
  match st with
  | none => []
  | some rows =>
      rows.filterMap fun r =>
        if statusFilter = "" ∨ r.status = statusFilter then some (toTaskView r)
        else none

/-- A JS number-or-string value: `completionRate` and `averageAge` are the
number `0` on an empty list and a `toFixed(2)` string otherwise. -/
inductive JsVal where
  | num (q : ℚ)
  | str (s : String)
  deriving DecidableEq, Repr

/-- Two-digit rendering of a number below 100. -/
def pad2 (n : Nat) : String := if n < 10 then "0" ++ toString n else toString n

/-- `Number.prototype.toFixed(2)` on an exact rational: round half up at the
second decimal — the hundredth count is `⌊q·100 + 1/2⌋`, computed on the
reduced fraction `q = num/den` as `(200·num + den).fdiv (2·den)` so that the
kernel can evaluate it — and print exactly two fractional digits. -/
def toFixed2 (q : ℚ) : String :=
  if q < 0 then
    let p := -q
    let n := (Int.fdiv (200 * p.num + (p.den : Int)) (2 * (p.den : Int))).toNat
    "-" ++ toString (n / 100) ++ "." ++ pad2 (n % 100)
  else
    let n := (Int.fdiv (200 * q.num + (q.den : Int)) (2 * (q.den : Int))).toNat
    toString (n / 100) ++ "." ++ pad2 (n % 100)

/-- `m[k]++` on a zero-initialized JS counter object: bump the key when
present (`none` is NaN, and NaN + 1 = NaN); on a missing key JS stores
`undefined + 1 = NaN`, i.e. `none`. -/
def bumpKey : List (String × Option ℚ) → String → List (String × Option ℚ)
  | [], k => [(k, none)]
  | (k₀, v) :: rest, k =>
      if k₀ = k then (k₀, v.map (· + 1)) :: rest else (k₀, v) :: bumpKey rest k

/-- `m[k] = (m[k] || 0) + 1`: bump the key, inserting it at 1 when absent. -/
def bumpOr0 : List (String × Nat) → String → List (String × Nat)
  | [], k => [(k, 1)]
  | (k₀, v) :: rest, k =>
      if k₀ = k then (k₀, v + 1) :: rest else (k₀, v) :: bumpOr0 rest k

/-- `task.tags.split(',').map(tag => tag.trim())` (line 288). -/
def splitTags (tags : String) : List String := (jsSplit tags ',').map jsTrim

/-- Body of the tag loop (lines 289-293): count a token only when non-empty. -/
def bumpTag (m : List (String × Nat)) (tag : String) : List (String × Nat) :=
  if tag ≠ "" then bumpOr0 m tag else m

/-- Mutable accumulators of the `tasks.forEach` loop of `getTaskAnalytics`. -/
structure AnalyticsAcc where
  byStatus : List (String × Option ℚ)
  byPriority : List (String × Option ℚ)
  overdue : Nat
  completedTasks : Nat
  totalAge : ℚ
  topAssignees : List (String × Nat)
  tagDistribution : List (String × Nat)
  deriving DecidableEq, Repr

/-- One iteration of the `tasks.forEach` loop of `getTaskAnalytics`
(source lines 260-295). -/
def analyticsStep (now : Int) (acc : AnalyticsAcc) (task : TaskRow) : AnalyticsAcc :=
  { byStatus := bumpKey acc.byStatus task.status
    byPriority := bumpKey acc.byPriority task.priority
    overdue := acc.overdue +
      (match task.dueDate with
       | some d => if d < now ∧ task.status ≠ "Completed" then 1 else 0
       | none => 0)
    completedTasks := acc.completedTasks + (if task.status = "Completed" then 1 else 0)
    totalAge := acc.totalAge + ((now : ℚ) - (task.createdDate : ℚ)) / (1000 * 60 * 60 * 24)
    topAssignees :=
      if task.assignee ≠ "" then bumpOr0 acc.topAssignees task.assignee
      else acc.topAssignees
    tagDistribution :=
      if task.tags ≠ "" then (splitTags task.tags).foldl bumpTag acc.tagDistribution
      else acc.tagDistribution }

/-- The analytics object returned by `getTaskAnalytics`. -/
structure Analytics where
  total : Nat
  byStatus : List (String × Option ℚ)
  byPriority : List (String × Option ℚ)
  overdue : Nat
  completionRate : JsVal
  averageAge : JsVal
  topAssignees : List (String × Nat)
  tagDistribution : List (String × Nat)
  deriving DecidableEq, Repr

/-- The zero-filled counters the loop starts from (lines 253-254). -/
def initAcc : AnalyticsAcc :=
  { byStatus := STATUS_OPTIONS.map fun s => (s, some 0)
    byPriority := PRIORITY_OPTIONS.map fun p => (p, some 0)
    overdue := 0
    completedTasks := 0
    totalAge := 0
    topAssignees := []
    tagDistribution := [] }

/-- `getTaskAnalytics` (source lines 238-301) as the pure reduction of a task
list snapshot:  `completionRate = total > 0 ? (completed/total*100).toFixed(2)
: 0` and `averageAge = total > 0 ? (totalAge/total).toFixed(2) : 0`. -/
def getTaskAnalytics (tasks : List TaskRow) (now : Int) : Analytics :=
  let acc := tasks.foldl (analyticsStep now) initAcc
  { total := tasks.length
    byStatus := acc.byStatus
    byPriority := acc.byPriority
    overdue := acc.overdue
    completionRate :=
      if tasks.length > 0 then
        .str (toFixed2 ((acc.completedTasks : ℚ) / (tasks.length : ℚ) * 100))
      else .num 0
    averageAge :=
      if tasks.length > 0 then .str (toFixed2 (acc.totalAge / (tasks.length : ℚ)))
      else .num 0
    topAssignees := acc.topAssignees
    tagDistribution := acc.tagDistribution }

/-- One store-mutating call of the public interface. -/
inductive Op where
  | addOne (now : Int) (taskName priority : String) (dueDate : Option Int)
      (notes tags assignee : String)
  | addBatch (now : Int) (input : BatchInput)
  | del (taskId : Nat)
  deriving DecidableEq, Repr

/-- Effect of one call on the sheet (thrown errors leave the sheet as it was,
since every throw in the source precedes the first write). -/
def applyOp (st : SheetState) : Op → SheetState
  | .addOne now n p d no t a => (addTask st now n p d no t a).1
  | .addBatch now input => (addTasksBatch st now input).1
  | .del tid => deleteTask st tid

/-- A freshly initialized store: the Tasks sheet exists and holds only the
header row. -/
def freshStore : SheetState := some []

/-- The sheet after a sequence of calls against a freshly initialized store. -/
def runOps (ops : List Op) : SheetState := ops.foldl applyOp freshStore

/-! Concrete rows and inputs used to instantiate the theorems below. -/

/-- A stored row with the given id and status and innocuous other fields. -/
def mkRow (i : Nat) (status : String) : TaskRow :=
  { id := i, task := "t", status := status, priority := "Medium", createdDate := 0,
    dueDate := none, notes := "", tags := "", assignee := "" }

/-- A plain batch-input element. -/
def sampleInput : TaskInput :=
  { name := "t", priority := "Low", dueDate := none, notes := "", tags := "", assignee := "" }

/-- A single-task add call with the given title and default-ish arguments. -/
def addOpNamed (s : String) : Op := .addOne 0 s "Medium" none "" "" ""

/-! Theorems for the claims. -/

/-- C1: the claim says task IDs are unique across stored rows and never
reused after deletion, for every addTask / addTasksBatch / deleteTask
sequence from a fresh store.  The code violates both parts.  First conjunct:
a single `addTasksBatch` of two tasks on a fresh store yields two stored rows
that BOTH carry id 1, because every `buildTaskData` call of a chunk reads the
sheet's last row before the chunk is written.  Third conjunct records that
`[1, 1]` has a duplicate.  Second conjunct: after `addTask "a"` (id 1),
`addTask "b"` (id 2) and `deleteTask 2`, the next `addTask "c"` is assigned
the previously deleted id 2 again. -/
theorem c1_ids_not_unique :
    (runOps [.addBatch 0 (.arr [sampleInput, sampleInput])]).map
        (fun rows => rows.map TaskRow.id) = some [1, 1] ∧
    (runOps [addOpNamed "a", addOpNamed "b", .del 2, addOpNamed "c"]).map
        (fun rows => rows.map fun r => (r.id, r.task)) = some [(1, "a"), (2, "c")] ∧
    ¬ ([1, 1] : List Nat).Nodup := by
  refine ⟨by decide, by decide, by decide⟩

/-- C2: for every empty or whitespace-only title, `addTask` fails with the
validation error `'Task name is required'` and the sheet is unchanged (the
throw is the first statement of the function, before any write). -/
theorem c2_empty_title_rejected (st : SheetState) (now : Int)
    (taskName priority : String) (dueDate : Option Int) (notes tags assignee : String)
    (h : jsTrim taskName = "") :
    addTask st now taskName priority dueDate notes tags assignee
      = (st, .error (.validation "Task name is required")) := by
  unfold addTask
  rw [if_pos (Or.inr h)]

/-- Witness for C2 at the whitespace-only title `"   "` on a fresh store. -/
theorem c2_witness :
    jsTrim "   " = "" ∧
    addTask (some []) 0 "   " "High" none "" "" ""
      = (some [], .error (.validation "Task name is required")) :=
  ⟨by decide, c2_empty_title_rejected (some []) 0 "   " "High" none "" "" "" (by decide)⟩

/-- C6: for every non-empty title and every priority outside
{Low, Medium, High, Critical}, `addTask` appends the row built by
`buildTaskData`, and that row's priority is the fallback `"Medium"`. -/
theorem c6_bogus_priority_defaults_medium (rows : List TaskRow) (now : Int)
    (taskName priority : String) (dueDate : Option Int) (notes tags assignee : String)
    (ht : jsTrim taskName ≠ "") (hp : priority ∉ PRIORITY_OPTIONS) :
    (addTask (some rows) now taskName priority dueDate notes tags assignee).1
      = some (rows ++ [buildTaskData rows now taskName priority dueDate notes tags assignee]) ∧
    (buildTaskData rows now taskName priority dueDate notes tags assignee).priority
      = "Medium" := by
  have hne : ¬ (taskName = "" ∨ jsTrim taskName = "") := by
    rintro (h | h)
    · subst h; exact ht (by decide)
    · exact ht h
  constructor
  · unfold addTask
    rw [if_neg hne]
  · unfold buildTaskData
    simp [hp]

/-- Witness for C6: `addTask` with priority `"Bogus"` stores `"Medium"`. -/
theorem c6_witness :
    jsTrim "Fix bug" ≠ "" ∧ "Bogus" ∉ PRIORITY_OPTIONS ∧
    (buildTaskData [] 0 "Fix bug" "Bogus" none "" "" "").priority = "Medium" :=
  ⟨by decide, by decide,
    (c6_bogus_priority_defaults_medium [] 0 "Fix bug" "Bogus" none "" "" ""
      (by decide) (by decide)).2⟩

/-- The completed-task counter of the analytics loop counts exactly the tasks
whose status is `"Completed"`. -/
theorem foldl_completedTasks (now : Int) (tasks : List TaskRow) (acc : AnalyticsAcc) :
    (tasks.foldl (analyticsStep now) acc).completedTasks
      = acc.completedTasks + (tasks.filter fun t => t.status == "Completed").length := by
  induction tasks generalizing acc with
  | nil => simp
  | cons t ts ih =>
      rw [List.foldl_cons, ih]
      by_cases h : t.status = "Completed"
      · simp [analyticsStep, List.filter_cons, h]
        omega
      · simp [analyticsStep, List.filter_cons, h]

/-- C4: `getTaskAnalytics` returns `completionRate` and `averageAge` both
equal to the number `0` on the empty task list, and on a list of 4 tasks of
which exactly 1 is Completed it returns `completionRate` rendered as the
two-decimal string `"25.00"`. -/
theorem c4_completion_rate (now : Int) (tasks : List TaskRow)
    (hlen : tasks.length = 4)
    (hcomp : (tasks.filter fun t => t.status == "Completed").length = 1) :
    ((getTaskAnalytics [] now).completionRate = JsVal.num 0 ∧
      (getTaskAnalytics [] now).averageAge = JsVal.num 0) ∧
    (getTaskAnalytics tasks now).completionRate = JsVal.str "25.00" := by
  refine ⟨⟨rfl, rfl⟩, ?_⟩
  have h1 : (tasks.foldl (analyticsStep now) initAcc).completedTasks = 1 := by
    rw [foldl_completedTasks, hcomp]
    rfl
  have key : (getTaskAnalytics tasks now).completionRate
      = if tasks.length > 0 then
          JsVal.str (toFixed2
            (((tasks.foldl (analyticsStep now) initAcc).completedTasks : ℚ)
              / (tasks.length : ℚ) * 100))
        else JsVal.num 0 := rfl
  rw [key, h1, hlen]
  norm_num
  decide

/-- Witness for C4: a concrete 4-task list with exactly one Completed task. -/
theorem c4_witness :
    ([mkRow 1 "Completed", mkRow 2 "Pending", mkRow 3 "In Progress",
        mkRow 4 "Blocked"].length = 4) ∧
    (([mkRow 1 "Completed", mkRow 2 "Pending", mkRow 3 "In Progress",
        mkRow 4 "Blocked"].filter fun t => t.status == "Completed").length = 1) ∧
    (getTaskAnalytics [mkRow 1 "Completed", mkRow 2 "Pending", mkRow 3 "In Progress",
        mkRow 4 "Blocked"] 0).completionRate = JsVal.str "25.00" :=
  ⟨by decide, by decide, (c4_completion_rate 0 _ (by decide) (by decide)).2⟩

/-- The tag counters of the analytics loop depend only on the tags fields:
they are the fold of the comma-split, trimmed, non-empty tag tokens of each
task over the accumulator's tag map. -/
theorem foldl_tagDistribution (now : Int) (tasks : List TaskRow) (acc : AnalyticsAcc) :
    (tasks.foldl (analyticsStep now) acc).tagDistribution
      = tasks.foldl
          (fun m t => if t.tags ≠ "" then (splitTags t.tags).foldl bumpTag m else m)
          acc.tagDistribution := by
  induction tasks generalizing acc with
  | nil => rfl
  | cons t ts ih =>
      rw [List.foldl_cons, List.foldl_cons, ih]
      rfl

/-- C7: `getTaskAnalytics` on a task list whose tags fields are `"a, b"` and
`"b,c"` produces the tag distribution exactly `a ↦ 1, b ↦ 2, c ↦ 1` (split on
commas, trimmed, empty tokens excluded). -/
theorem c7_tag_distribution (now : Int) (t₁ t₂ : TaskRow)
    (h1 : t₁.tags = "a, b") (h2 : t₂.tags = "b,c") :
    (getTaskAnalytics [t₁, t₂] now).tagDistribution = [("a", 1), ("b", 2), ("c", 1)] := by
  have key : (getTaskAnalytics [t₁, t₂] now).tagDistribution
      = ([t₁, t₂].foldl (analyticsStep now) initAcc).tagDistribution := rfl
  rw [key, foldl_tagDistribution]
  simp only [List.foldl_cons, List.foldl_nil, h1, h2]
  decide

/-- Witness for C7 at two concrete stored tasks. -/
theorem c7_witness :
    (getTaskAnalytics [{ mkRow 1 "Pending" with tags := "a, b" },
        { mkRow 2 "Pending" with tags := "b,c" }] 0).tagDistribution
      = [("a", 1), ("b", 2), ("c", 1)] :=
  c7_tag_distribution 0 _ _ rfl rfl

/-- The first-match status update walks unchanged past a block of rows none
of which carries the id. -/
theorem setStatusFirst_append (pre rest : List TaskRow) (tid : Nat)
    (hpre : ∀ x ∈ pre, x.id ≠ tid) :
    setStatusFirst (pre ++ rest) tid = pre ++ setStatusFirst rest tid := by
  induction pre with
  | nil => rfl
  | cons x xs ih =>
      have hx : x.id ≠ tid := hpre x (List.mem_cons_self x xs)
      show setStatusFirst (x :: (xs ++ rest)) tid = x :: (xs ++ setStatusFirst rest tid)
      rw [setStatusFirst, if_neg hx, ih fun y hy => hpre y (List.mem_cons_of_mem x hy)]

/-- The first-match delete walks unchanged past a block of rows none of which
carries the id. -/
theorem deleteFirst_append (pre rest : List TaskRow) (tid : Nat)
    (hpre : ∀ x ∈ pre, x.id ≠ tid) :
    deleteFirst (pre ++ rest) tid = pre ++ deleteFirst rest tid := by
  induction pre with
  | nil => rfl
  | cons x xs ih =>
      have hx : x.id ≠ tid := hpre x (List.mem_cons_self x xs)
      show deleteFirst (x :: (xs ++ rest)) tid = x :: (xs ++ deleteFirst rest tid)
      rw [deleteFirst, if_neg hx, ih fun y hy => hpre y (List.mem_cons_of_mem x hy)]

/-- When no row carries the id, the first-match status update is the
identity. -/
theorem setStatusFirst_no_match (rows : List TaskRow) (tid : Nat)
    (h : ∀ r ∈ rows, r.id ≠ tid) : setStatusFirst rows tid = rows := by
  induction rows with
  | nil => rfl
  | cons x xs ih =>
      rw [setStatusFirst, if_neg (h x (List.mem_cons_self x xs)),
        ih fun r hr => h r (List.mem_cons_of_mem x hr)]

/-- C9: `completeTask` and `deleteTask` act on at most the FIRST row whose id
matches: for a store `pre ++ r :: post` where `r` is the first matching row,
`completeTask` rewrites only `r`'s status to Completed and `deleteTask`
removes only `r`; every row of `post` — including any later duplicate of the
same id — is returned unchanged. -/
theorem c9_first_match_only (pre post : List TaskRow) (r : TaskRow) (tid : Nat)
    (hr : r.id = tid) (hpre : ∀ x ∈ pre, x.id ≠ tid) :
    completeTask (some (pre ++ r :: post)) tid
        = some (pre ++ { r with status := "Completed" } :: post) ∧
    deleteTask (some (pre ++ r :: post)) tid = some (pre ++ post) := by
  constructor
  · show some (setStatusFirst (pre ++ r :: post) tid) = _
    rw [setStatusFirst_append pre (r :: post) tid hpre, setStatusFirst, if_pos hr]
  · show some (deleteFirst (pre ++ r :: post) tid) = _
    rw [deleteFirst_append pre (r :: post) tid hpre, deleteFirst, if_pos hr]

/-- Witness for C9 at a store holding two rows with the same id 5: only the
first is completed, only the first is deleted. -/
theorem c9_witness :
    completeTask (some [mkRow 5 "Pending", mkRow 5 "Pending"]) 5
        = some [{ mkRow 5 "Pending" with status := "Completed" }, mkRow 5 "Pending"] ∧
    deleteTask (some [mkRow 5 "Pending", mkRow 5 "Pending"]) 5
        = some [mkRow 5 "Pending"] :=
  c9_first_match_only [] [mkRow 5 "Pending"] (mkRow 5 "Pending") 5 rfl (by simp)

/-- After removing the first matching row from a store in which at most one
row matches, no matching row remains. -/
theorem deleteFirst_no_match (rows : List TaskRow) (tid : Nat)
    (h : (rows.filter fun r => r.id == tid).length ≤ 1) :
    ∀ r ∈ deleteFirst rows tid, r.id ≠ tid := by
  induction rows with
  | nil =>
      intro r hr
      cases hr
  | cons x xs ih =>
      by_cases hx : x.id = tid
      · intro r hr he
        rw [deleteFirst, if_pos hx] at hr
        have hfx : List.filter (fun r => r.id == tid) (x :: xs)
            = x :: List.filter (fun r => r.id == tid) xs := by
          rw [List.filter_cons_of_pos]
          simp [hx]
        rw [hfx, List.length_cons] at h
        have h0 : (xs.filter fun r => r.id == tid) = [] :=
          List.eq_nil_of_length_eq_zero (by omega)
        have hnot := List.filter_eq_nil_iff.mp h0
        exact hnot r hr (by simp [he])
      · intro r hr
        rw [deleteFirst, if_neg hx] at hr
        have hfx : List.filter (fun r => r.id == tid) (x :: xs)
            = List.filter (fun r => r.id == tid) xs := by
          rw [List.filter_cons_of_neg]
          simp [hx]
        rcases List.mem_cons.mp hr with h1 | h1
        · subst h1
          exact hx
        · exact ih (by rw [hfx] at h; exact h) r h1

/-- Every task returned by `getTasks` carries the id of some stored row. -/
theorem getTasks_id_mem (rows : List TaskRow) (statusFilter : String) (t : TaskView)
    (ht : t ∈ getTasks (some rows) statusFilter) : ∃ r ∈ rows, r.id = t.id := by
  have ht2 : t ∈ rows.filterMap fun r =>
      if statusFilter = "" ∨ r.status = statusFilter then some (toTaskView r)
      else none := ht
  obtain ⟨r, hr, hrt⟩ := List.mem_filterMap.mp ht2
  refine ⟨r, hr, ?_⟩
  by_cases hc : statusFilter = "" ∨ r.status = statusFilter
  · rw [if_pos hc] at hrt
    have h2 := Option.some.inj hrt
    rw [← h2]
    rfl
  · rw [if_neg hc] at hrt
    cases hrt

/-- C3, counterexample to the claim as stated: the id-assignment defect makes
duplicate-id stores reachable, and there `deleteTask` does NOT purge the id.
After `addTask "a"; addTask "b"; deleteTask 1; addTask "c"` the store holds
ids `[2, 2]`; the id 2 is present, yet after `deleteTask 2` the listing still
contains a task with id 2, and the subsequent `completeTask 2` is not a
no-op: it mutates the store. -/
theorem c3_counterexample :
    ((getTasks (runOps [addOpNamed "a", addOpNamed "b", .del 1, addOpNamed "c"]) "").map
        TaskView.id = [2, 2]) ∧
    ((getTasks (deleteTask
        (runOps [addOpNamed "a", addOpNamed "b", .del 1, addOpNamed "c"]) 2) "").map
        TaskView.id = [2]) ∧
    completeTask (deleteTask
        (runOps [addOpNamed "a", addOpNamed "b", .del 1, addOpNamed "c"]) 2) 2
      ≠ deleteTask (runOps [addOpNamed "a", addOpNamed "b", .del 1, addOpNamed "c"]) 2 := by
  refine ⟨by decide, by decide, by decide⟩

/-- C3 (amended): provided at most one stored row carries the id — which is
how every store looks when ids are unique as intended — `deleteTask id`
followed by listing yields no task with that id (for every status filter),
and a subsequent `completeTask id` is a silent no-op: no error, no row
created, store unchanged. -/
theorem c3_delete_roundtrip (rows : List TaskRow) (tid : Nat) (statusFilter : String)
    (h : (rows.filter fun r => r.id == tid).length ≤ 1) :
    (∀ t ∈ getTasks (deleteTask (some rows) tid) statusFilter, t.id ≠ tid) ∧
    completeTask (deleteTask (some rows) tid) tid = deleteTask (some rows) tid := by
  have hno := deleteFirst_no_match rows tid h
  constructor
  · intro t ht he
    obtain ⟨r, hr, hid⟩ := getTasks_id_mem (deleteFirst rows tid) statusFilter t ht
    exact hno r hr (by rw [hid, he])
  · show some (setStatusFirst (deleteFirst rows tid) tid) = some (deleteFirst rows tid)
    rw [setStatusFirst_no_match _ _ hno]

/-- Witness for C3 at a concrete two-row store with distinct ids. -/
theorem c3_witness :
    (([mkRow 1 "Pending", mkRow 2 "Pending"].filter fun r => r.id == 1).length ≤ 1) ∧
    ((∀ t ∈ getTasks (deleteTask (some [mkRow 1 "Pending", mkRow 2 "Pending"]) 1) "",
        t.id ≠ 1) ∧
      completeTask (deleteTask (some [mkRow 1 "Pending", mkRow 2 "Pending"]) 1) 1
        = deleteTask (some [mkRow 1 "Pending", mkRow 2 "Pending"]) 1) :=
  ⟨by decide, c3_delete_roundtrip [mkRow 1 "Pending", mkRow 2 "Pending"] 1 "" (by decide)⟩

/-- C8: `addTasksBatch` fails with the validation error
`'Invalid tasks array provided'` both on a non-array input and on the empty
array, and in both cases the sheet is unchanged (the throw precedes any
write). -/
theorem c8_batch_input_validated (st : SheetState) (now : Int) :
    addTasksBatch st now .notArray
        = (st, .error (.validation "Invalid tasks array provided")) ∧
    addTasksBatch st now (.arr [])
        = (st, .error (.validation "Invalid tasks array provided")) := by
  exact ⟨rfl, rfl⟩

/-- Unfolding step of the chunking loop on a non-empty remainder. -/
theorem chunksGo_succ {α : Type} (f : Nat) (l : List α) (h : l ≠ []) :
    chunksGo (f + 1) l = l.take BATCH_SIZE :: chunksGo f (l.drop BATCH_SIZE) := by
  simp [chunksGo, h]

/-- The chunking loop stops on an empty remainder, whatever fuel is left. -/
theorem chunksGo_nil {α : Type} (f : Nat) : chunksGo f ([] : List α) = [] := by
  cases f <;> simp [chunksGo]

/-- A 250-element input is chunked into batches of 100, 100 and 50, in
order. -/
theorem chunk_lengths_250 {α : Type} (l : List α) (h : l.length = 250) :
    (chunksOf l).map List.length = [100, 100, 50] := by
  have h0 : l ≠ [] := by
    intro e
    rw [e] at h
    simp at h
  have hd1 : (l.drop BATCH_SIZE).length = 150 := by
    simp only [BATCH_SIZE, List.length_drop]
    omega
  have hd1ne : l.drop BATCH_SIZE ≠ [] := by
    intro e
    rw [e] at hd1
    simp at hd1
  have hd2 : ((l.drop BATCH_SIZE).drop BATCH_SIZE).length = 50 := by
    simp only [BATCH_SIZE, List.length_drop]
    omega
  have hd2ne : (l.drop BATCH_SIZE).drop BATCH_SIZE ≠ [] := by
    intro e
    rw [e] at hd2
    simp at hd2
  have hd3 : ((l.drop BATCH_SIZE).drop BATCH_SIZE).drop BATCH_SIZE = [] := by
    apply List.eq_nil_of_length_eq_zero
    simp only [BATCH_SIZE, List.length_drop]
    omega
  unfold chunksOf
  rw [h, show (250 : Nat) = 249 + 1 from rfl, chunksGo_succ _ _ h0,
    show (249 : Nat) = 248 + 1 from rfl, chunksGo_succ _ _ hd1ne,
    show (248 : Nat) = 247 + 1 from rfl, chunksGo_succ _ _ hd2ne, hd3, chunksGo_nil]
  simp only [List.map_cons, List.map_nil, List.length_take, h, hd1, hd2]
  decide

/-- The count returned by the batch loop is the sum of the chunk lengths. -/
theorem batchStep_total (now : Int) (batches : List (List TaskInput))
    (rows : List TaskRow) (tot : Nat) :
    (batches.foldl (batchStep now) (rows, tot)).2
      = tot + (batches.map List.length).sum := by
  induction batches generalizing rows tot with
  | nil => simp
  | cons b bs ih =>
      rw [List.foldl_cons]
      have hstep : batchStep now (rows, tot) b
          = (rows ++ b.map fun t =>
              buildTaskData rows now t.name t.priority t.dueDate t.notes t.tags t.assignee,
             tot + b.length) := by
        simp [batchStep]
      rw [hstep, ih]
      simp only [List.map_cons, List.sum_cons]
      omega

/-- C5: on a 250-element task list, `addTasksBatch` splits the work into
exactly 3 chunks of sizes 100, 100 and 50 in order, and (no chunk failing in
this deterministic model) returns a total added count of 250. -/
theorem c5_batch_of_250 (tasks : List TaskInput) (h : tasks.length = 250) :
    (chunksOf tasks).map List.length = [100, 100, 50] ∧
    ∀ (rows : List TaskRow) (now : Int),
      (addTasksBatch (some rows) now (.arr tasks)).2 = .ok 250 := by
  have hc := chunk_lengths_250 tasks h
  refine ⟨hc, fun rows now => ?_⟩
  have hkey : addTasksBatch (some rows) now (.arr tasks)
      = (some ((chunksOf tasks).foldl (batchStep now) (rows, 0)).1,
         .ok ((chunksOf tasks).foldl (batchStep now) (rows, 0)).2) := by
    simp only [addTasksBatch]
    rw [if_neg (by omega)]
  rw [hkey]
  show Except.ok ((chunksOf tasks).foldl (batchStep now) (rows, 0)).2 = Except.ok 250
  rw [batchStep_total, hc]
  rfl

/-- Witness for C5 at a concrete 250-element input list. -/
theorem c5_witness :
    (List.replicate 250 sampleInput).length = 250 ∧
    (chunksOf (List.replicate 250 sampleInput)).map List.length = [100, 100, 50] ∧
    (addTasksBatch (some []) 0 (.arr (List.replicate 250 sampleInput))).2 = .ok 250 :=
  ⟨by rw [List.length_replicate],
    (c5_batch_of_250 (List.replicate 250 sampleInput) (by rw [List.length_replicate])).1,
    (c5_batch_of_250 (List.replicate 250 sampleInput) (by rw [List.length_replicate])).2 [] 0⟩

/-- C10: when the Tasks sheet does not exist, `getTasks` returns the empty
list for every status filter — it raises nothing — and is therefore
indistinguishable from `getTasks` on an existing empty sheet. -/
theorem c10_missing_sheet_empty (statusFilter : String) :
    getTasks none statusFilter = [] ∧
    getTasks none statusFilter = getTasks (some []) statusFilter := by
  exact ⟨rfl, rfl⟩

end TaskManager
